import Mathlib

/-!
# Shallow embedding of the `ebook-store` Clarity contract

This file embeds the on-chain ledger contract of the ebook-store
repository (`contracts/ebook-store.clar`, reproduced verbatim inside
`src/tests/ebook-store.test.ts`) and proves the specification claims
about it.

Modelling conventions, following the Clarity execution semantics:

* Principals are modelled as natural numbers; `(string-utf8 n)` as
  `String`; `(buff 32)` content hashes as an opaque `Nat`; `uint` as
  `Nat` (Clarity `uint` is 128-bit, but no operation here can overflow:
  the only arithmetic is `counter + 1` and balance moves).
* Every Clarity `define-map` is an association list with set-or-replace
  update (`aset`), matching `map-set` / `map-get?`.
* A Clarity public function that returns `(err e)` — via `asserts!` or
  `unwrap!` — aborts the whole call and the host rolls back every state
  write made inside it.  Each embedded operation therefore returns
  `Except Nat α × StoreState`, where an error result is always paired
  with the *unchanged* input state, and a success result with the fully
  committed state.  In particular `register-ebook`'s author-index
  overflow (`unwrap!` on `as-max-len?`, error `u100`) and `buy-ebook`'s
  buyer-index overflow abort with no net writes, even though the
  source's `map-set` calls textually precede those `unwrap!`s.
* `stx-transfer? amount sender recipient` fails when the amount is
  zero, the sender equals the recipient, or the sender's balance is
  below the amount (Clarity errors `u3`, `u2`, `u1`); on success it
  debits the sender and credits the recipient.
* `stacks-block-time` is the state's `blockTime` field; it does not
  change under contract calls and no claim depends on its value.
-/

deriving instance DecidableEq for Except

/-- Principals (Stacks addresses) modelled as naturals. -/
abbrev Principal := Nat

/-- Error code constants of the contract (`define-constant ERR-... (err uNNN)`). -/
def ERR_NOT_AUTHORIZED : Nat := 100
def ERR_EBOOK_NOT_FOUND : Nat := 101
def ERR_EBOOK_EXISTS : Nat := 102
def ERR_INSUFFICIENT_FUNDS : Nat := 103
def ERR_ALREADY_PURCHASED : Nat := 104
def ERR_INVALID_PRICE : Nat := 105
def ERR_INVALID_TITLE : Nat := 106
def ERR_SELF_PURCHASE : Nat := 107
def ERR_TRANSFER_FAILED : Nat := 108

/-- An ebook record, the value type of the `ebooks` map. -/
structure Ebook where
  title : String
  description : String
  contentHash : Nat
  price : Nat
  author : Principal
  createdAt : Nat
  active : Bool
deriving DecidableEq

/-- A purchase record, the value type of the `purchases` map. -/
structure Purchase where
  purchasedAt : Nat
  pricePaid : Nat
deriving DecidableEq

/-- `map-get?` on an association list: first binding of the key, if any. -/
def alookup {α β : Type} [DecidableEq α] : List (α × β) → α → Option β
  | [], _ => none
  | (k, v) :: rest, k' => if k = k' then some v else alookup rest k'

/-- `map-set` on an association list: replace the first binding of the key
in place, or append a fresh binding at the end. -/
def aset {α β : Type} [DecidableEq α] : List (α × β) → α → β → List (α × β)
  | [], k, v => [(k, v)]
  | (k0, v0) :: rest, k, v =>
      if k0 = k then (k, v) :: rest else (k0, v0) :: aset rest k v

/-- The whole contract state: the data var, the four data maps, the STX
account balances of the host chain, and the current block time. -/
structure StoreState where
  ebookCounter : Nat
  ebooks : List (Nat × Ebook)
  purchases : List ((Nat × Principal) × Purchase)
  authorEbooks : List (Principal × List Nat)
  buyerEbooks : List (Principal × List Nat)
  balances : List (Principal × Nat)
  blockTime : Nat
deriving DecidableEq

/-- STX balance of a principal (absent accounts hold zero). -/
def stxBalance (s : StoreState) (p : Principal) : Nat :=
  (alookup s.balances p).getD 0

/-- `stx-transfer? amount sender recipient`: `none` models the Clarity
error cases (zero amount, sender = recipient, insufficient balance);
`some` returns the updated balance map. -/
def stxTransfer (bal : List (Principal × Nat)) (amount : Nat)
    (sender recipient : Principal) : Option (List (Principal × Nat)) :=
  if amount = 0 then none
  else if sender = recipient then none
  else if (alookup bal sender).getD 0 < amount then none
  else
    let bal1 := aset bal sender ((alookup bal sender).getD 0 - amount)
    some (aset bal1 recipient ((alookup bal1 recipient).getD 0 + amount))

/-! ## Read-only functions -/

/-- `(define-read-only (get-ebook (ebook-id uint)) ...)` -/
def getEbook (s : StoreState) (ebookId : Nat) : Option Ebook :=
  alookup s.ebooks ebookId

/-- `(define-read-only (has-access (buyer principal) (ebook-id uint)) ...)`:
true iff a purchase record exists for the pair. -/
def hasAccess (s : StoreState) (buyer : Principal) (ebookId : Nat) : Bool :=
  (alookup s.purchases (ebookId, buyer)).isSome

/-- `(define-read-only (get-purchase (buyer principal) (ebook-id uint)) ...)` -/
def getPurchase (s : StoreState) (buyer : Principal) (ebookId : Nat) :
    Option Purchase :=
  alookup s.purchases (ebookId, buyer)

/-- `(define-read-only (get-ebook-count) ...)` -/
def getEbookCount (s : StoreState) : Nat :=
  s.ebookCounter

/-- `(define-read-only (get-author-ebooks (author principal)) ...)` -/
def getAuthorEbooks (s : StoreState) (author : Principal) : List Nat :=
  (alookup s.authorEbooks author).getD []

/-- `(define-read-only (get-buyer-ebooks (buyer principal)) ...)` -/
def getBuyerEbooks (s : StoreState) (buyer : Principal) : List Nat :=
  (alookup s.buyerEbooks buyer).getD []

/-- `(define-read-only (is-author (ebook-id uint) (user principal)) ...)` -/
def isAuthor (s : StoreState) (ebookId : Nat) (user : Principal) : Bool :=
  match alookup s.ebooks ebookId with
  | some ebook => ebook.author = user
  | none => false

/-- `(define-read-only (get-ebook-price (ebook-id uint)) ...)` -/
def getEbookPrice (s : StoreState) (ebookId : Nat) : Except Nat Nat :=
  match alookup s.ebooks ebookId with
  | some ebook => Except.ok ebook.price
  | none => Except.error ERR_EBOOK_NOT_FOUND

/-! ## Public functions -/

/-- `(define-public (register-ebook title description content-hash price) ...)`.
Guards: non-empty title (`ERR-INVALID-TITLE`), positive price
(`ERR-INVALID-PRICE`), author index capacity 100 (the `unwrap!` of
`as-max-len?` aborts with `ERR-NOT-AUTHORIZED`, rolling back the
`map-set` of the book).  On success: stores the book with
`active = true`, appends the id to the author's list, and sets the
counter to the new id. -/
def registerEbook (s : StoreState) (sender : Principal)
    (title description : String) (contentHash : Nat) (price : Nat) :
    Except Nat Nat × StoreState :=
  let newEbookId := s.ebookCounter + 1
  let currentAuthorEbooks := (alookup s.authorEbooks sender).getD []
  if ¬ (0 < title.length) then (Except.error ERR_INVALID_TITLE, s)
  else if ¬ (0 < price) then (Except.error ERR_INVALID_PRICE, s)
  else if ¬ (currentAuthorEbooks.length + 1 ≤ 100) then
    (Except.error ERR_NOT_AUTHORIZED, s)
  else
    (Except.ok newEbookId,
      { s with
        ebookCounter := newEbookId
        ebooks := aset s.ebooks newEbookId
          { title := title, description := description,
            contentHash := contentHash, price := price, author := sender,
            createdAt := s.blockTime, active := true }
        authorEbooks :=
          aset s.authorEbooks sender (currentAuthorEbooks ++ [newEbookId]) })

/-- `(define-public (buy-ebook (ebook-id uint)) ...)`.
Guards in source order: book found (`ERR-EBOOK-NOT-FOUND`), book active
(`ERR-EBOOK-NOT-FOUND`), buyer ≠ author (`ERR-SELF-PURCHASE`), no prior
purchase (`ERR-ALREADY-PURCHASED`), STX transfer succeeds
(`ERR-TRANSFER-FAILED`), buyer index below capacity (the `unwrap!` of
`as-max-len?` aborts with `ERR-NOT-AUTHORIZED`, rolling back the
transfer and the purchase record).  On success: balances moved,
purchase recorded, id appended to the buyer's list. -/
def buyEbook (s : StoreState) (sender : Principal) (ebookId : Nat) :
    Except Nat Bool × StoreState :=
  match alookup s.ebooks ebookId with
  | none => (Except.error ERR_EBOOK_NOT_FOUND, s)
  | some ebook =>
    let currentBuyerEbooks := (alookup s.buyerEbooks sender).getD []
    if ¬ (ebook.active = true) then (Except.error ERR_EBOOK_NOT_FOUND, s)
    else if sender = ebook.author then (Except.error ERR_SELF_PURCHASE, s)
    else if hasAccess s sender ebookId then
      (Except.error ERR_ALREADY_PURCHASED, s)
    else
      match stxTransfer s.balances ebook.price sender ebook.author with
      | none => (Except.error ERR_TRANSFER_FAILED, s)
      | some newBalances =>
        if ¬ (currentBuyerEbooks.length + 1 ≤ 100) then
          (Except.error ERR_NOT_AUTHORIZED, s)
        else
          (Except.ok true,
            { s with
              balances := newBalances
              purchases := aset s.purchases (ebookId, sender)
                { purchasedAt := s.blockTime, pricePaid := ebook.price }
              buyerEbooks :=
                aset s.buyerEbooks sender (currentBuyerEbooks ++ [ebookId]) })

/-- `(define-public (update-price (ebook-id uint) (new-price uint)) ...)`.
Guards: book found, caller is the author (`ERR-NOT-AUTHORIZED`), new
price positive (`ERR-INVALID-PRICE`).  On success the book record is
`merge`d with `{ price: new-price }`. -/
def updatePrice (s : StoreState) (sender : Principal)
    (ebookId newPrice : Nat) : Except Nat Bool × StoreState :=
  match alookup s.ebooks ebookId with
  | none => (Except.error ERR_EBOOK_NOT_FOUND, s)
  | some ebook =>
    if ¬ (ebook.author = sender) then (Except.error ERR_NOT_AUTHORIZED, s)
    else if ¬ (0 < newPrice) then (Except.error ERR_INVALID_PRICE, s)
    else
      (Except.ok true,
        { s with ebooks := aset s.ebooks ebookId { ebook with price := newPrice } })

/-- `(define-public (deactivate-ebook (ebook-id uint)) ...)`.
Guards: book found, caller is the author.  On success the record is
`merge`d with `{ active: false }`. -/
def deactivateEbook (s : StoreState) (sender : Principal) (ebookId : Nat) :
    Except Nat Bool × StoreState :=
  match alookup s.ebooks ebookId with
  | none => (Except.error ERR_EBOOK_NOT_FOUND, s)
  | some ebook =>
    if ¬ (ebook.author = sender) then (Except.error ERR_NOT_AUTHORIZED, s)
    else
      (Except.ok true,
        { s with ebooks := aset s.ebooks ebookId { ebook with active := false } })

/-- `(define-public (reactivate-ebook (ebook-id uint)) ...)`.
Guards: book found, caller is the author.  On success the record is
`merge`d with `{ active: true }`. -/
def reactivateEbook (s : StoreState) (sender : Principal) (ebookId : Nat) :
    Except Nat Bool × StoreState :=
  match alookup s.ebooks ebookId with
  | none => (Except.error ERR_EBOOK_NOT_FOUND, s)
  | some ebook =>
    if ¬ (ebook.author = sender) then (Except.error ERR_NOT_AUTHORIZED, s)
    else
      (Except.ok true,
        { s with ebooks := aset s.ebooks ebookId { ebook with active := true } })

/-! ## Operation sequences -/

/-- One contract call: the public operation plus its `tx-sender`. -/
inductive Op where
  | register (sender : Principal) (title description : String)
      (contentHash price : Nat)
  | buy (sender : Principal) (ebookId : Nat)
  | updatePrice (sender : Principal) (ebookId newPrice : Nat)
  | deactivate (sender : Principal) (ebookId : Nat)
  | reactivate (sender : Principal) (ebookId : Nat)
deriving DecidableEq

/-- The state after one contract call (the discarded first component is
the call's return value). -/
def applyOp (s : StoreState) : Op → StoreState
  | .register sender title description contentHash price =>
      (registerEbook s sender title description contentHash price).2
  | .buy sender ebookId => (buyEbook s sender ebookId).2
  | .updatePrice sender ebookId newPrice =>
      (updatePrice s sender ebookId newPrice).2
  | .deactivate sender ebookId => (deactivateEbook s sender ebookId).2
  | .reactivate sender ebookId => (reactivateEbook s sender ebookId).2

/-- Run a sequence of contract calls. -/
def runOps (s : StoreState) (ops : List Op) : StoreState :=
  ops.foldl applyOp s

/-- The contract's state at deployment: counter `u0`, all maps empty.
The host-chain balances and block time are parameters. -/
def initState (bal : List (Principal × Nat)) (t : Nat) : StoreState :=
  { ebookCounter := 0, ebooks := [], purchases := [], authorEbooks := [],
    buyerEbooks := [], balances := bal, blockTime := t }

/-- A state reachable from deployment by some sequence of contract calls
(for arbitrary initial balances and block time). -/
def Reachable (s : StoreState) : Prop :=
  ∃ bal t ops, s = runOps (initState bal t) ops

/-- Whether a book with this id exists and currently has `active = true`
(the condition under which `buy-ebook` passes its first two guards). -/
def bookActive (s : StoreState) (ebookId : Nat) : Bool :=
  match alookup s.ebooks ebookId with
  | some ebook => ebook.active
  | none => false

/-! ## Association-list lemmas -/

theorem alookup_aset_self {α β : Type} [DecidableEq α]
    (l : List (α × β)) (k : α) (v : β) : alookup (aset l k v) k = some v := by
  induction l with
  | nil => simp [aset, alookup]
  | cons hd tl ih =>
    cases hd with
    | mk k0 v0 =>
      by_cases h0 : k0 = k
      · rw [aset, if_pos h0, alookup, if_pos rfl]
      · rw [aset, if_neg h0, alookup, if_neg h0]
        exact ih

theorem alookup_aset_ne {α β : Type} [DecidableEq α]
    (l : List (α × β)) (k k' : α) (v : β) (h : k ≠ k') :
    alookup (aset l k v) k' = alookup l k' := by
  induction l with
  | nil => simp [aset, alookup, h]
  | cons hd tl ih =>
    cases hd with
    | mk k0 v0 =>
      by_cases h0 : k0 = k
      · subst h0
        rw [aset, if_pos rfl, alookup, if_neg h, alookup, if_neg h]
      · rw [aset, if_neg h0, alookup, alookup]
        by_cases h1 : k0 = k'
        · rw [if_pos h1, if_pos h1]
        · rw [if_neg h1, if_neg h1]
          exact ih

theorem mem_aset {α β : Type} [DecidableEq α]
    {l : List (α × β)} {k : α} {v : β} {p : α × β} (h : p ∈ aset l k v) :
    p = (k, v) ∨ p ∈ l := by
  induction l with
  | nil => simpa [aset] using h
  | cons hd tl ih =>
    cases hd with
    | mk k0 v0 =>
      by_cases h0 : k0 = k
      · rw [aset, if_pos h0] at h
        rcases List.mem_cons.1 h with h1 | h1
        · exact Or.inl h1
        · exact Or.inr (List.mem_cons_of_mem _ h1)
      · rw [aset, if_neg h0] at h
        rcases List.mem_cons.1 h with h1 | h1
        · exact Or.inr (h1 ▸ List.mem_cons_self _ _)
        · rcases ih h1 with h2 | h2
          · exact Or.inl h2
          · exact Or.inr (List.mem_cons_of_mem _ h2)

theorem alookup_some_mem {α β : Type} [DecidableEq α]
    {l : List (α × β)} {k : α} {v : β} (h : alookup l k = some v) :
    (k, v) ∈ l := by
  induction l with
  | nil => simp [alookup] at h
  | cons hd tl ih =>
    cases hd with
    | mk k0 v0 =>
      by_cases h0 : k0 = k
      · subst h0
        rw [alookup, if_pos rfl] at h
        cases h
        exact List.mem_cons_self _ _
      · rw [alookup, if_neg h0] at h
        exact List.mem_cons_of_mem _ (ih h)

theorem alookup_isSome_aset {α β : Type} [DecidableEq α]
    (l : List (α × β)) (k k' : α) (v : β)
    (h : (alookup l k').isSome = true) :
    (alookup (aset l k v) k').isSome = true := by
  by_cases hk : k = k'
  · subst hk
    rw [alookup_aset_self]
    rfl
  · rw [alookup_aset_ne l k k' v hk]
    exact h

theorem keys_nodup_aset {α β : Type} [DecidableEq α]
    (l : List (α × β)) (k : α) (v : β)
    (h : (l.map Prod.fst).Nodup) :
    ((aset l k v).map Prod.fst).Nodup := by
  induction l with
  | nil => simp [aset]
  | cons hd tl ih =>
    cases hd with
    | mk k0 v0 =>
      rw [List.map_cons, List.nodup_cons] at h
      by_cases h0 : k0 = k
      · subst h0
        rw [aset, if_pos rfl, List.map_cons, List.nodup_cons]
        exact h
      · rw [aset, if_neg h0, List.map_cons, List.nodup_cons]
        refine ⟨?_, ih h.2⟩
        intro hmem
        rcases List.mem_map.1 hmem with ⟨p, hp, hfst⟩
        rcases mem_aset hp with hp' | hp'
        · exact h0 (by rw [hp'] at hfst; exact hfst.symm)
        · exact h.1 (hfst ▸ List.mem_map_of_mem Prod.fst hp')

/-! ## Operation characterisation lemmas -/

/-- `register-ebook` either aborts with an error and an unchanged state, or
commits the full success write set and returns the new id. -/
theorem registerEbook_spec (s : StoreState) (sender : Principal)
    (title description : String) (contentHash price : Nat) :
    (∃ e, registerEbook s sender title description contentHash price =
      (Except.error e, s)) ∨
    registerEbook s sender title description contentHash price =
      (Except.ok (s.ebookCounter + 1),
        { s with
          ebookCounter := s.ebookCounter + 1
          ebooks := aset s.ebooks (s.ebookCounter + 1)
            { title := title, description := description,
              contentHash := contentHash, price := price, author := sender,
              createdAt := s.blockTime, active := true }
          authorEbooks := aset s.authorEbooks sender
            ((alookup s.authorEbooks sender).getD [] ++ [s.ebookCounter + 1]) }) := by
  unfold registerEbook
  by_cases h1 : 0 < title.length
  · by_cases h2 : 0 < price
    · by_cases h3 : ((alookup s.authorEbooks sender).getD []).length + 1 ≤ 100
      · right
        simp [h1, h2, h3]
      · left
        exact ⟨ERR_NOT_AUTHORIZED, by simp [h1, h2, h3]⟩
    · left
      exact ⟨ERR_INVALID_PRICE, by simp [h1, h2]⟩
  · left
    exact ⟨ERR_INVALID_TITLE, by simp [h1]⟩

/-- `buy-ebook` either aborts with an error and an unchanged state, or
commits the transfer, the purchase record and the buyer-index append for
a book whose author is not the buyer. -/
theorem buyEbook_state_spec (s : StoreState) (sender : Principal)
    (ebookId : Nat) :
    (∃ e, buyEbook s sender ebookId = (Except.error e, s)) ∨
    ∃ ebook newBalances,
      alookup s.ebooks ebookId = some ebook ∧ sender ≠ ebook.author ∧
      (buyEbook s sender ebookId).1 = Except.ok true ∧
      (buyEbook s sender ebookId).2 =
        { s with
          balances := newBalances
          purchases := aset s.purchases (ebookId, sender)
            { purchasedAt := s.blockTime, pricePaid := ebook.price }
          buyerEbooks := aset s.buyerEbooks sender
            ((alookup s.buyerEbooks sender).getD [] ++ [ebookId]) } := by
  unfold buyEbook
  cases hl : alookup s.ebooks ebookId with
  | none => left; exact ⟨ERR_EBOOK_NOT_FOUND, rfl⟩
  | some ebook =>
    by_cases ha : ebook.active = true
    · by_cases hs : sender = ebook.author
      · left; exact ⟨ERR_SELF_PURCHASE, by simp [ha, hs]⟩
      · by_cases hacc : hasAccess s sender ebookId
        · left; exact ⟨ERR_ALREADY_PURCHASED, by simp [ha, hs, hacc]⟩
        · cases ht : stxTransfer s.balances ebook.price sender ebook.author with
          | none => left; exact ⟨ERR_TRANSFER_FAILED, by simp [ha, hs, hacc, ht]⟩
          | some newBalances =>
            by_cases hcap :
                ((alookup s.buyerEbooks sender).getD []).length + 1 ≤ 100
            · right
              exact ⟨ebook, newBalances, rfl, hs, by simp [ha, hs, hacc, ht, hcap],
                by simp [ha, hs, hacc, ht, hcap]⟩
            · left; exact ⟨ERR_NOT_AUTHORIZED, by simp [ha, hs, hacc, ht, hcap]⟩
    · left; exact ⟨ERR_EBOOK_NOT_FOUND, by simp [ha]⟩

/-- `update-price` either aborts with an error and an unchanged state, or
replaces the book record by the same record with only `price` changed. -/
theorem updatePrice_state_spec (s : StoreState) (sender : Principal)
    (ebookId newPrice : Nat) :
    (updatePrice s sender ebookId newPrice).2 = s ∨
    ∃ ebook, alookup s.ebooks ebookId = some ebook ∧ ebook.author = sender ∧
      (updatePrice s sender ebookId newPrice).2 =
        { s with ebooks := aset s.ebooks ebookId { ebook with price := newPrice } } := by
  unfold updatePrice
  cases hl : alookup s.ebooks ebookId with
  | none => left; rfl
  | some ebook =>
    by_cases hauth : ebook.author = sender
    · by_cases hp : 0 < newPrice
      · right
        exact ⟨ebook, rfl, hauth, by simp [hauth, hp]⟩
      · left; simp [hauth, hp]
    · left; simp [hauth]

/-- `deactivate-ebook` either aborts with an error and an unchanged state,
or replaces the book record by the same record with `active := false`. -/
theorem deactivateEbook_state_spec (s : StoreState) (sender : Principal)
    (ebookId : Nat) :
    (deactivateEbook s sender ebookId).2 = s ∨
    ∃ ebook, alookup s.ebooks ebookId = some ebook ∧ ebook.author = sender ∧
      (deactivateEbook s sender ebookId).2 =
        { s with ebooks := aset s.ebooks ebookId { ebook with active := false } } := by
  unfold deactivateEbook
  cases hl : alookup s.ebooks ebookId with
  | none => left; rfl
  | some ebook =>
    by_cases hauth : ebook.author = sender
    · right
      exact ⟨ebook, rfl, hauth, by simp [hauth]⟩
    · left; simp [hauth]

/-- `reactivate-ebook` either aborts with an error and an unchanged state,
or replaces the book record by the same record with `active := true`. -/
theorem reactivateEbook_state_spec (s : StoreState) (sender : Principal)
    (ebookId : Nat) :
    (reactivateEbook s sender ebookId).2 = s ∨
    ∃ ebook, alookup s.ebooks ebookId = some ebook ∧ ebook.author = sender ∧
      (reactivateEbook s sender ebookId).2 =
        { s with ebooks := aset s.ebooks ebookId { ebook with active := true } } := by
  unfold reactivateEbook
  cases hl : alookup s.ebooks ebookId with
  | none => left; rfl
  | some ebook =>
    by_cases hauth : ebook.author = sender
    · right
      exact ⟨ebook, rfl, hauth, by simp [hauth]⟩
    · left; simp [hauth]

/-! ## Targeted `buy-ebook` lemmas -/

theorem buyEbook_not_found {s : StoreState} (sender : Principal) {ebookId : Nat}
    (h : alookup s.ebooks ebookId = none) :
    buyEbook s sender ebookId = (Except.error ERR_EBOOK_NOT_FOUND, s) := by
  unfold buyEbook
  rw [h]

theorem buyEbook_inactive {s : StoreState} (sender : Principal) {ebookId : Nat}
    {ebook : Ebook} (h : alookup s.ebooks ebookId = some ebook)
    (ha : ebook.active = false) :
    buyEbook s sender ebookId = (Except.error ERR_EBOOK_NOT_FOUND, s) := by
  unfold buyEbook
  rw [h]
  simp [ha]

theorem buyEbook_self_purchase {s : StoreState} {ebookId : Nat} {ebook : Ebook}
    (h : alookup s.ebooks ebookId = some ebook) (ha : ebook.active = true) :
    buyEbook s ebook.author ebookId = (Except.error ERR_SELF_PURCHASE, s) := by
  unfold buyEbook
  rw [h]
  simp [ha]

theorem buyEbook_already_purchased {s : StoreState} {sender : Principal}
    {ebookId : Nat} {ebook : Ebook} (h : alookup s.ebooks ebookId = some ebook)
    (ha : ebook.active = true) (hs : sender ≠ ebook.author)
    (hacc : hasAccess s sender ebookId = true) :
    buyEbook s sender ebookId = (Except.error ERR_ALREADY_PURCHASED, s) := by
  unfold buyEbook
  rw [h]
  simp [ha, hs, hacc]

theorem buyEbook_transfer_failure {s : StoreState} {sender : Principal}
    {ebookId : Nat} {ebook : Ebook} (h : alookup s.ebooks ebookId = some ebook)
    (ha : ebook.active = true) (hs : sender ≠ ebook.author)
    (hacc : hasAccess s sender ebookId = false)
    (ht : stxTransfer s.balances ebook.price sender ebook.author = none) :
    buyEbook s sender ebookId = (Except.error ERR_TRANSFER_FAILED, s) := by
  unfold buyEbook
  rw [h]
  simp [ha, hs, hacc, ht]

theorem registerEbook_ok_id {s : StoreState} {sender : Principal}
    {title description : String} {contentHash price : Nat} {r : Nat}
    {s' : StoreState}
    (h : registerEbook s sender title description contentHash price =
      (Except.ok r, s')) :
    r = s.ebookCounter + 1 := by
  rcases registerEbook_spec s sender title description contentHash price with
    ⟨e, hE⟩ | hS
  · rw [hE] at h
    simp at h
  · rw [hS] at h
    simp only [Prod.mk.injEq, Except.ok.injEq] at h
    exact h.1.symm

/-! ## Reachable-state invariant -/

/-- Invariant of every reachable state: book ids lie in `[1, counter]`,
every purchase key points at a registered book whose author is not the
purchase's buyer, and the purchase keys are pairwise distinct. -/
def StoreInv (s : StoreState) : Prop :=
  (∀ p ∈ s.ebooks, 1 ≤ p.1 ∧ p.1 ≤ s.ebookCounter) ∧
  (∀ q ∈ s.purchases, ∃ e, alookup s.ebooks q.1.1 = some e ∧ e.author ≠ q.1.2) ∧
  (s.purchases.map Prod.fst).Nodup

theorem storeInv_init (bal : List (Principal × Nat)) (t : Nat) :
    StoreInv (initState bal t) := by
  refine ⟨?_, ?_, ?_⟩ <;> simp [initState]

/-- Updating the record of an existing book without changing its author
preserves the invariant. -/
theorem storeInv_set_ebook {s : StoreState} (h : StoreInv s) (ebookId : Nat)
    (ebook e' : Ebook) (hfound : alookup s.ebooks ebookId = some ebook)
    (hauth : e'.author = ebook.author) :
    StoreInv { s with ebooks := aset s.ebooks ebookId e' } := by
  obtain ⟨h1, h2, h3⟩ := h
  refine ⟨?_, ?_, h3⟩
  · intro p hp
    rcases mem_aset hp with hp' | hp'
    · have hb := h1 _ (alookup_some_mem hfound)
      rw [hp']
      exact ⟨hb.1, hb.2⟩
    · exact h1 _ hp'
  · intro q hq
    obtain ⟨e, he, hne⟩ := h2 q hq
    by_cases hk : q.1.1 = ebookId
    · refine ⟨e', by rw [hk, alookup_aset_self], ?_⟩
      rw [hk] at he
      rw [hfound] at he
      have : ebook = e := Option.some.inj he
      rw [hauth, this]
      exact hne
    · exact ⟨e, by
        rw [alookup_aset_ne s.ebooks ebookId q.1.1 e' (fun hh => hk hh.symm)]
        exact he, hne⟩

theorem storeInv_applyOp {s : StoreState} (h : StoreInv s) (op : Op) :
    StoreInv (applyOp s op) := by
  obtain ⟨h1, h2, h3⟩ := h
  cases op with
  | register sender title description contentHash price =>
    show StoreInv (registerEbook s sender title description contentHash price).2
    rcases registerEbook_spec s sender title description contentHash price with
      ⟨e, hE⟩ | hS
    · rw [hE]
      exact ⟨h1, h2, h3⟩
    · rw [hS]
      refine ⟨?_, ?_, h3⟩
      · intro p hp
        rcases mem_aset hp with hp' | hp'
        · rw [hp']
          exact ⟨Nat.succ_le_succ (Nat.zero_le _), Nat.le_refl _⟩
        · have hb := h1 _ hp'
          exact ⟨hb.1, Nat.le_succ_of_le hb.2⟩
      · intro q hq
        obtain ⟨e, he, hne⟩ := h2 q hq
        have hqle : q.1.1 ≤ s.ebookCounter := (h1 _ (alookup_some_mem he)).2
        refine ⟨e, ?_, hne⟩
        have hne' : s.ebookCounter + 1 ≠ q.1.1 := by omega
        rw [alookup_aset_ne _ _ _ _ hne']
        exact he
  | buy sender ebookId =>
    show StoreInv (buyEbook s sender ebookId).2
    rcases buyEbook_state_spec s sender ebookId with
      ⟨e, hE⟩ | ⟨ebook, newBal, hfound, hs, hok, hS⟩
    · rw [hE]
      exact ⟨h1, h2, h3⟩
    · rw [hS]
      refine ⟨h1, ?_, keys_nodup_aset _ _ _ h3⟩
      intro q hq
      rcases mem_aset hq with hq' | hq'
      · rw [hq']
        exact ⟨ebook, hfound, fun hh => hs hh.symm⟩
      · exact h2 _ hq'
  | updatePrice sender ebookId newPrice =>
    show StoreInv (updatePrice s sender ebookId newPrice).2
    rcases updatePrice_state_spec s sender ebookId newPrice with
      hE | ⟨ebook, hfound, hauth, hS⟩
    · rw [hE]
      exact ⟨h1, h2, h3⟩
    · rw [hS]
      exact storeInv_set_ebook ⟨h1, h2, h3⟩ ebookId ebook _ hfound rfl
  | deactivate sender ebookId =>
    show StoreInv (deactivateEbook s sender ebookId).2
    rcases deactivateEbook_state_spec s sender ebookId with
      hE | ⟨ebook, hfound, hauth, hS⟩
    · rw [hE]
      exact ⟨h1, h2, h3⟩
    · rw [hS]
      exact storeInv_set_ebook ⟨h1, h2, h3⟩ ebookId ebook _ hfound rfl
  | reactivate sender ebookId =>
    show StoreInv (reactivateEbook s sender ebookId).2
    rcases reactivateEbook_state_spec s sender ebookId with
      hE | ⟨ebook, hfound, hauth, hS⟩
    · rw [hE]
      exact ⟨h1, h2, h3⟩
    · rw [hS]
      exact storeInv_set_ebook ⟨h1, h2, h3⟩ ebookId ebook _ hfound rfl

theorem storeInv_runOps {s : StoreState} (h : StoreInv s) (ops : List Op) :
    StoreInv (runOps s ops) := by
  induction ops generalizing s with
  | nil => exact h
  | cons op rest ih => exact ih (storeInv_applyOp h op)

theorem storeInv_reachable {s : StoreState} (h : Reachable s) : StoreInv s := by
  obtain ⟨bal, t, ops, rfl⟩ := h
  exact storeInv_runOps (storeInv_init bal t) ops

/-! ## Purchase-record monotonicity -/

theorem hasAccess_applyOp {s : StoreState} {buyer : Principal} {ebookId : Nat}
    (h : hasAccess s buyer ebookId = true) (op : Op) :
    hasAccess (applyOp s op) buyer ebookId = true := by
  cases op with
  | register sender title description contentHash price =>
    show hasAccess (registerEbook s sender title description contentHash price).2
      buyer ebookId = true
    rcases registerEbook_spec s sender title description contentHash price with
      ⟨e, hE⟩ | hS
    · rw [hE]
      exact h
    · rw [hS]
      exact h
  | buy sender ebookId' =>
    show hasAccess (buyEbook s sender ebookId').2 buyer ebookId = true
    rcases buyEbook_state_spec s sender ebookId' with
      ⟨e, hE⟩ | ⟨ebook, newBal, hfound, hs, hok, hS⟩
    · rw [hE]
      exact h
    · rw [hS]
      exact alookup_isSome_aset _ _ _ _ h
  | updatePrice sender ebookId' newPrice =>
    show hasAccess (updatePrice s sender ebookId' newPrice).2 buyer ebookId = true
    rcases updatePrice_state_spec s sender ebookId' newPrice with
      hE | ⟨ebook, hfound, hauth, hS⟩
    · rw [hE]
      exact h
    · rw [hS]
      exact h
  | deactivate sender ebookId' =>
    show hasAccess (deactivateEbook s sender ebookId').2 buyer ebookId = true
    rcases deactivateEbook_state_spec s sender ebookId' with
      hE | ⟨ebook, hfound, hauth, hS⟩
    · rw [hE]
      exact h
    · rw [hS]
      exact h
  | reactivate sender ebookId' =>
    show hasAccess (reactivateEbook s sender ebookId').2 buyer ebookId = true
    rcases reactivateEbook_state_spec s sender ebookId' with
      hE | ⟨ebook, hfound, hauth, hS⟩
    · rw [hE]
      exact h
    · rw [hS]
      exact h

theorem hasAccess_runOps {s : StoreState} {buyer : Principal} {ebookId : Nat}
    (h : hasAccess s buyer ebookId = true) (ops : List Op) :
    hasAccess (runOps s ops) buyer ebookId = true := by
  induction ops generalizing s with
  | nil => exact h
  | cons op rest ih => exact ih (hasAccess_applyOp h op)

/-! ## Counter tracking -/

/-- Whether an `Except` result is a success. -/
def isOkE {ε α : Type} : Except ε α → Bool
  | Except.ok _ => true
  | Except.error _ => false

/-- Counter increment caused by one operation from a given state: `1` for
a successful `register-ebook` call, `0` otherwise. -/
def regDelta (s : StoreState) : Op → Nat
  | Op.register sender title description contentHash price =>
      if isOkE (registerEbook s sender title description contentHash price).1
      then 1 else 0
  | _ => 0

/-- Number of successful `register-ebook` calls along an operation
sequence executed from a given state. -/
def successfulRegisters : StoreState → List Op → Nat
  | _, [] => 0
  | s, op :: rest => regDelta s op + successfulRegisters (applyOp s op) rest

theorem counter_applyOp (s : StoreState) (op : Op) :
    (applyOp s op).ebookCounter = s.ebookCounter + regDelta s op := by
  cases op with
  | register sender title description contentHash price =>
    show (registerEbook s sender title description contentHash price).2.ebookCounter
      = s.ebookCounter + regDelta s (Op.register sender title description contentHash price)
    rcases registerEbook_spec s sender title description contentHash price with
      ⟨e, hE⟩ | hS
    · simp [regDelta, hE, isOkE]
    · simp [regDelta, hS, isOkE]
  | buy sender ebookId =>
    show (buyEbook s sender ebookId).2.ebookCounter = s.ebookCounter + _
    rcases buyEbook_state_spec s sender ebookId with
      ⟨e, hE⟩ | ⟨ebook, newBal, hfound, hs, hok, hS⟩
    · simp [regDelta, hE]
    · simp [regDelta, hS]
  | updatePrice sender ebookId newPrice =>
    show (updatePrice s sender ebookId newPrice).2.ebookCounter = s.ebookCounter + _
    rcases updatePrice_state_spec s sender ebookId newPrice with
      hE | ⟨ebook, hfound, hauth, hS⟩
    · simp [regDelta, hE]
    · simp [regDelta, hS]
  | deactivate sender ebookId =>
    show (deactivateEbook s sender ebookId).2.ebookCounter = s.ebookCounter + _
    rcases deactivateEbook_state_spec s sender ebookId with
      hE | ⟨ebook, hfound, hauth, hS⟩
    · simp [regDelta, hE]
    · simp [regDelta, hS]
  | reactivate sender ebookId =>
    show (reactivateEbook s sender ebookId).2.ebookCounter = s.ebookCounter + _
    rcases reactivateEbook_state_spec s sender ebookId with
      hE | ⟨ebook, hfound, hauth, hS⟩
    · simp [regDelta, hE]
    · simp [regDelta, hS]

theorem counter_runOps (s : StoreState) (ops : List Op) :
    (runOps s ops).ebookCounter = s.ebookCounter + successfulRegisters s ops := by
  induction ops generalizing s with
  | nil => simp [runOps, successfulRegisters]
  | cons op rest ih =>
    show (runOps (applyOp s op) rest).ebookCounter = _
    rw [ih (applyOp s op), counter_applyOp, successfulRegisters]
    omega

/-! ## Claim theorems -/

/-- C1 (counterexample): the claim "a second `buy-ebook` by the same buyer
on an already-purchased book id always returns `AlreadyPurchased` (u104)"
is false: after register (author 1, price 5), buy by buyer 2, and
deactivate by the author, buyer 2 still holds a purchase record, yet a
second `buy-ebook` returns `ERR-EBOOK-NOT-FOUND` (u101), because the
`active` guard precedes the duplicate-purchase guard. -/
theorem secondBuy_after_deactivate_returns_notFound :
    hasAccess (runOps (initState [(2, 10)] 0)
      [Op.register 1 "t" "d" 0 5, Op.buy 2 1, Op.deactivate 1 1]) 2 1 = true ∧
    (buyEbook (runOps (initState [(2, 10)] 0)
      [Op.register 1 "t" "d" 0 5, Op.buy 2 1, Op.deactivate 1 1]) 2 1).1 =
      Except.error ERR_EBOOK_NOT_FOUND ∧
    (buyEbook (runOps (initState [(2, 10)] 0)
      [Op.register 1 "t" "d" 0 5, Op.buy 2 1, Op.deactivate 1 1]) 2 1).1 ≠
      Except.error ERR_ALREADY_PURCHASED := by
  decide

/-- C1 (amended): in every reachable state at most one purchase record
exists per (book, buyer) pair (the purchase keys are pairwise distinct);
a second `buy-ebook` by a buyer who already holds a purchase record
returns `AlreadyPurchased` (u104) when the book is currently active, and
`NotFound` (u101) when it has been deactivated — in both cases the whole
state, value balances included, is unchanged. -/
theorem purchase_unique_and_second_buy_rejected (s : StoreState)
    (h : Reachable s) (buyer : Principal) (ebookId : Nat) :
    (s.purchases.map Prod.fst).Nodup ∧
    (hasAccess s buyer ebookId = true → bookActive s ebookId = true →
      buyEbook s buyer ebookId = (Except.error ERR_ALREADY_PURCHASED, s)) ∧
    (hasAccess s buyer ebookId = true → bookActive s ebookId = false →
      buyEbook s buyer ebookId = (Except.error ERR_EBOOK_NOT_FOUND, s)) := by
  obtain ⟨h1, h2, h3⟩ := storeInv_reachable h
  refine ⟨h3, ?_, ?_⟩
  · intro hacc hact
    obtain ⟨rec, hrec⟩ := Option.isSome_iff_exists.1 hacc
    obtain ⟨e, he, hne⟩ := h2 _ (alookup_some_mem hrec)
    have hef : alookup s.ebooks ebookId = some e := he
    have hea : e.active = true := by
      unfold bookActive at hact
      rw [hef] at hact
      exact hact
    exact buyEbook_already_purchased hef hea (fun hh => hne hh.symm) hacc
  · intro hacc hact
    cases hl : alookup s.ebooks ebookId with
    | none => exact buyEbook_not_found buyer hl
    | some e =>
      have hea : e.active = false := by
        unfold bookActive at hact
        rw [hl] at hact
        exact hact
      exact buyEbook_inactive buyer hl hea

/-- C1 (witness): a concrete second buy on an active, already-purchased
book returns `AlreadyPurchased` with the state unchanged. -/
theorem purchase_unique_and_second_buy_rejected_witness :
    buyEbook (runOps (initState [(2, 10)] 0)
      [Op.register 1 "t" "d" 0 5, Op.buy 2 1]) 2 1 =
      (Except.error ERR_ALREADY_PURCHASED,
       runOps (initState [(2, 10)] 0) [Op.register 1 "t" "d" 0 5, Op.buy 2 1]) :=
  (purchase_unique_and_second_buy_rejected _
    ⟨[(2, 10)], 0, [Op.register 1 "t" "d" 0 5, Op.buy 2 1], rfl⟩ 2 1).2.1
    (by decide) (by decide)

/-- C2: whenever `buy-ebook` has passed all its guards (book found and
active, not the author, not already purchased) and the STX transfer of
the price from buyer to author fails, the call returns `TransferFailed`
(u108) and the whole state — purchases map, buyer index, balances, books
map — is unchanged (all-or-nothing); in particular no purchase record is
written without a completed transfer. -/
theorem buy_transfer_failure_all_or_nothing (s : StoreState)
    (sender : Principal) (ebookId : Nat) (ebook : Ebook)
    (hfound : getEbook s ebookId = some ebook)
    (hactive : ebook.active = true) (hself : sender ≠ ebook.author)
    (hnew : hasAccess s sender ebookId = false)
    (ht : stxTransfer s.balances ebook.price sender ebook.author = none) :
    buyEbook s sender ebookId = (Except.error ERR_TRANSFER_FAILED, s) :=
  buyEbook_transfer_failure hfound hactive hself hnew ht

/-- C2 (witness): a buyer with zero balance fails the transfer and
leaves the concrete state untouched. -/
theorem buy_transfer_failure_all_or_nothing_witness :
    buyEbook (runOps (initState [] 0) [Op.register 1 "t" "d" 0 5]) 2 1 =
      (Except.error ERR_TRANSFER_FAILED,
       runOps (initState [] 0) [Op.register 1 "t" "d" 0 5]) :=
  buy_transfer_failure_all_or_nothing _ 2 1
    { title := "t", description := "d", contentHash := 0, price := 5,
      author := 1, createdAt := 0, active := true }
    (by decide) (by decide) (by decide) (by decide) (by decide)

/-- C3: after any operation sequence from the initial state,
`get-ebook-count` equals the number of successful `register-ebook` calls
executed so far, and a further `register-ebook` call that succeeds
returns exactly that count plus one — so the Nth successful registration
yields id N, strictly increasing from 1. -/
theorem register_ids_sequential (bal : List (Principal × Nat)) (t : Nat)
    (ops : List Op) (sender : Principal) (title description : String)
    (contentHash price : Nat) :
    getEbookCount (runOps (initState bal t) ops) =
      successfulRegisters (initState bal t) ops ∧
    (∀ r s', registerEbook (runOps (initState bal t) ops) sender title
        description contentHash price = (Except.ok r, s') →
      r = successfulRegisters (initState bal t) ops + 1) := by
  have hc := counter_runOps (initState bal t) ops
  constructor
  · simpa [getEbookCount, initState] using hc
  · intro r s' hreg
    rw [registerEbook_ok_id hreg, hc]
    simp [initState]

/-- C3 (witness): after one successful registration, the next successful
`register-ebook` returns id 2. -/
theorem register_ids_sequential_witness :
    (2 : Nat) = successfulRegisters (initState [] 0)
      [Op.register 1 "a" "b" 0 5] + 1 :=
  (register_ids_sequential [] 0 [Op.register 1 "a" "b" 0 5]
      2 "t" "d" 0 7).2 2
    (registerEbook (runOps (initState [] 0) [Op.register 1 "a" "b" 0 5])
      2 "t" "d" 0 7).2
    (by decide)

/-- C4: after a successful `buy-ebook`, `has-access(buyer, id)` is true,
and it remains true after any subsequent sequence of operations —
including the author deactivating the book — because nothing ever
removes a purchase record. -/
theorem access_permanent (s : StoreState) (buyer : Principal)
    (ebookId : Nat) (s' : StoreState)
    (h : buyEbook s buyer ebookId = (Except.ok true, s')) (ops : List Op) :
    hasAccess s' buyer ebookId = true ∧
    hasAccess (runOps s' ops) buyer ebookId = true := by
  have h0 : hasAccess s' buyer ebookId = true := by
    rcases buyEbook_state_spec s buyer ebookId with
      ⟨e, hE⟩ | ⟨ebook, newBal, hfound, hs, hok, hS⟩
    · rw [hE] at h
      simp at h
    · have hs' : s' = (buyEbook s buyer ebookId).2 := by rw [h]
      rw [hs', hS]
      show (alookup (aset s.purchases (ebookId, buyer) _) (ebookId, buyer)).isSome = true
      rw [alookup_aset_self]
      rfl
  exact ⟨h0, hasAccess_runOps h0 ops⟩

/-- C4 (witness): a concrete buyer keeps access after the author
deactivates the book. -/
theorem access_permanent_witness :
    hasAccess (runOps (buyEbook (runOps (initState [(2, 10)] 0)
      [Op.register 1 "t" "d" 0 5]) 2 1).2 [Op.deactivate 1 1]) 2 1 = true :=
  (access_permanent (runOps (initState [(2, 10)] 0) [Op.register 1 "t" "d" 0 5]) 2 1
    (buyEbook (runOps (initState [(2, 10)] 0) [Op.register 1 "t" "d" 0 5]) 2 1).2
    (by decide) [Op.deactivate 1 1]).2

/-- C5 (counterexample): the claim "`buy-ebook` by the book's registered
author always fails with `SelfPurchase` (u107), for any price/state" is
false: on a deactivated book the author's buy returns
`ERR-EBOOK-NOT-FOUND` (u101), because the `active` guard precedes the
self-purchase guard. -/
theorem author_buy_inactive_returns_notFound :
    isAuthor (runOps (initState [] 0)
      [Op.register 1 "t" "d" 0 5, Op.deactivate 1 1]) 1 1 = true ∧
    (buyEbook (runOps (initState [] 0)
      [Op.register 1 "t" "d" 0 5, Op.deactivate 1 1]) 1 1).1 =
      Except.error ERR_EBOOK_NOT_FOUND ∧
    (buyEbook (runOps (initState [] 0)
      [Op.register 1 "t" "d" 0 5, Op.deactivate 1 1]) 1 1).1 ≠
      Except.error ERR_SELF_PURCHASE := by
  decide

/-- C5 (amended): for every state and every registered book, `buy-ebook`
by the book's registered author fails with `SelfPurchase` (u107) when
the book is active, and with `NotFound` (u101) when it is inactive; in
both cases the state is unchanged. -/
theorem author_self_buy_rejected (s : StoreState) (ebookId : Nat)
    (ebook : Ebook) (hfound : getEbook s ebookId = some ebook) :
    (ebook.active = true →
      buyEbook s ebook.author ebookId = (Except.error ERR_SELF_PURCHASE, s)) ∧
    (ebook.active = false →
      buyEbook s ebook.author ebookId = (Except.error ERR_EBOOK_NOT_FOUND, s)) :=
  ⟨fun ha => buyEbook_self_purchase hfound ha,
   fun ha => buyEbook_inactive ebook.author hfound ha⟩

/-- C5 (witness): the author's buy on a concrete active book fails with
`SelfPurchase`. -/
theorem author_self_buy_rejected_witness :
    buyEbook (runOps (initState [] 0) [Op.register 1 "t" "d" 0 5]) 1 1 =
      (Except.error ERR_SELF_PURCHASE,
       runOps (initState [] 0) [Op.register 1 "t" "d" 0 5]) :=
  (author_self_buy_rejected _ 1
    { title := "t", description := "d", contentHash := 0, price := 5,
      author := 1, createdAt := 0, active := true }
    (by decide)).1 (by decide)

/-- C6: for every caller, `buy-ebook` fails with `NotFound` (u101) both
when no book with the id exists and when the book exists but its
`active` flag is false — the same error code in both cases — leaving
the state unchanged. -/
theorem buy_notFound_missing_or_inactive (s : StoreState)
    (sender : Principal) (ebookId : Nat) :
    (getEbook s ebookId = none →
      buyEbook s sender ebookId = (Except.error ERR_EBOOK_NOT_FOUND, s)) ∧
    (∀ ebook, getEbook s ebookId = some ebook → ebook.active = false →
      buyEbook s sender ebookId = (Except.error ERR_EBOOK_NOT_FOUND, s)) :=
  ⟨fun h => buyEbook_not_found sender h,
   fun _ebook h ha => buyEbook_inactive sender h ha⟩

/-- C6 (witness): buying a nonexistent id on a concrete state returns
`NotFound`. -/
theorem buy_notFound_missing_or_inactive_witness :
    buyEbook (initState [] 0) 2 9 =
      (Except.error ERR_EBOOK_NOT_FOUND, initState [] 0) :=
  (buy_notFound_missing_or_inactive (initState [] 0) 2 9).1 (by decide)

/-- C7: for every existing book and every caller other than the book's
author, each of `update-price`, `deactivate-ebook` and `reactivate-ebook`
fails with `NotAuthorized` (u100) and leaves the whole state — in
particular every field of the book record — unchanged. -/
theorem nonauthor_mutations_rejected (s : StoreState) (caller : Principal)
    (ebookId : Nat) (ebook : Ebook) (newPrice : Nat)
    (hfound : getEbook s ebookId = some ebook)
    (hne : ebook.author ≠ caller) :
    updatePrice s caller ebookId newPrice = (Except.error ERR_NOT_AUTHORIZED, s) ∧
    deactivateEbook s caller ebookId = (Except.error ERR_NOT_AUTHORIZED, s) ∧
    reactivateEbook s caller ebookId = (Except.error ERR_NOT_AUTHORIZED, s) := by
  have hfound' : alookup s.ebooks ebookId = some ebook := hfound
  refine ⟨?_, ?_, ?_⟩
  · unfold updatePrice
    rw [hfound']
    simp [hne]
  · unfold deactivateEbook
    rw [hfound']
    simp [hne]
  · unfold reactivateEbook
    rw [hfound']
    simp [hne]

/-- C7 (witness): a concrete non-author caller is rejected by all three
mutating operations. -/
theorem nonauthor_mutations_rejected_witness :
    updatePrice (runOps (initState [] 0) [Op.register 1 "t" "d" 0 5]) 2 1 9 =
      (Except.error ERR_NOT_AUTHORIZED,
       runOps (initState [] 0) [Op.register 1 "t" "d" 0 5]) :=
  (nonauthor_mutations_rejected _ 2 1
    { title := "t", description := "d", contentHash := 0, price := 5,
      author := 1, createdAt := 0, active := true } 9
    (by decide) (by decide)).1

set_option maxRecDepth 10000 in
/-- C8 (counterexample): the claim that a `register-ebook` call hitting
the author-index capacity fails "with a distinct IndexOverflow error
(not any of the other error codes)" is false: from the reachable state
after 100 successful registrations by author 1, a further call with
valid title and price fails with `ERR-NOT-AUTHORIZED` (u100) — the very
code used for authorization failures — while storing no book (state
unchanged). -/
theorem register_index_overflow_reuses_notAuthorized_code :
    (getAuthorEbooks (runOps (initState [] 0)
      (List.replicate 100 (Op.register 1 "t" "d" 0 5))) 1).length = 100 ∧
    registerEbook (runOps (initState [] 0)
      (List.replicate 100 (Op.register 1 "t" "d" 0 5))) 1 "t" "d" 0 5 =
      (Except.error ERR_NOT_AUTHORIZED,
       runOps (initState [] 0) (List.replicate 100 (Op.register 1 "t" "d" 0 5))) ∧
    ERR_NOT_AUTHORIZED = 100 := by
  decide

/-- C8 (amended): when `register-ebook` is called with a valid title and
price but the calling author's index already holds 100 entries (its
capacity bound), the call fails with the reused `NotAuthorized` error
code (u100) — not a distinct IndexOverflow code — and no book is stored:
the state is unchanged. -/
theorem register_at_capacity_fails (s : StoreState) (sender : Principal)
    (title description : String) (contentHash price : Nat)
    (htitle : 0 < title.length) (hprice : 0 < price)
    (hfull : 100 ≤ (getAuthorEbooks s sender).length) :
    registerEbook s sender title description contentHash price =
      (Except.error ERR_NOT_AUTHORIZED, s) := by
  unfold registerEbook
  have hcap : ¬ ((alookup s.authorEbooks sender).getD []).length + 1 ≤ 100 := by
    unfold getAuthorEbooks at hfull
    omega
  simp [htitle, hprice, hcap]

/-- C8 (witness): a concrete register at a full author index fails with
the `NotAuthorized` code and leaves the state unchanged. -/
theorem register_at_capacity_fails_witness :
    registerEbook
      { ebookCounter := 100, ebooks := [], purchases := [],
        authorEbooks := [(1, List.replicate 100 7)], buyerEbooks := [],
        balances := [], blockTime := 0 } 1 "t" "d" 0 5 =
      (Except.error ERR_NOT_AUTHORIZED,
       { ebookCounter := 100, ebooks := [], purchases := [],
         authorEbooks := [(1, List.replicate 100 7)], buyerEbooks := [],
         balances := [], blockTime := 0 }) :=
  register_at_capacity_fails _ 1 "t" "d" 0 5 (by decide) (by decide) (by decide)

/-- C9: a successful `update-price` by the author with a positive new
price replaces only the `price` field of the book record — title,
description, content hash, author, creation timestamp and active flag
are those of the old record — and every other book, the purchases map,
both indices, the balances and the counter are unchanged. -/
theorem update_price_frame (s : StoreState) (caller : Principal)
    (ebookId newPrice : Nat) (ebook : Ebook)
    (hfound : getEbook s ebookId = some ebook)
    (hauth : ebook.author = caller) (hp : 0 < newPrice) :
    (updatePrice s caller ebookId newPrice).1 = Except.ok true ∧
    alookup (updatePrice s caller ebookId newPrice).2.ebooks ebookId =
      some { ebook with price := newPrice } ∧
    (∀ otherId, otherId ≠ ebookId →
      alookup (updatePrice s caller ebookId newPrice).2.ebooks otherId =
        alookup s.ebooks otherId) ∧
    (updatePrice s caller ebookId newPrice).2.purchases = s.purchases ∧
    (updatePrice s caller ebookId newPrice).2.authorEbooks = s.authorEbooks ∧
    (updatePrice s caller ebookId newPrice).2.buyerEbooks = s.buyerEbooks ∧
    (updatePrice s caller ebookId newPrice).2.balances = s.balances ∧
    (updatePrice s caller ebookId newPrice).2.ebookCounter = s.ebookCounter := by
  have hfound' : alookup s.ebooks ebookId = some ebook := hfound
  have hres : updatePrice s caller ebookId newPrice =
      (Except.ok true,
       { s with ebooks := aset s.ebooks ebookId { ebook with price := newPrice } }) := by
    unfold updatePrice
    rw [hfound']
    simp [hauth, hp]
  rw [hres]
  exact ⟨rfl, alookup_aset_self _ _ _,
    fun otherId ho => alookup_aset_ne _ _ _ _ (fun hh => ho hh.symm),
    rfl, rfl, rfl, rfl, rfl⟩

/-- C9 (witness): a concrete price update leaves every field but `price`
and every other state component unchanged. -/
theorem update_price_frame_witness :
    alookup (updatePrice (runOps (initState [] 0)
      [Op.register 1 "t" "d" 0 5]) 1 1 9).2.ebooks 1 =
      some { title := "t", description := "d", contentHash := 0, price := 9,
             author := 1, createdAt := 0, active := true } :=
  (update_price_frame (runOps (initState [] 0) [Op.register 1 "t" "d" 0 5]) 1 1 9
    { title := "t", description := "d", contentHash := 0, price := 5,
      author := 1, createdAt := 0, active := true }
    (by decide) (by decide) (by decide)).2.1

/-- C10: in every reachable state, the registered author of a book never
has purchase-based access to it: `has-access(author, id)` is false,
because purchase records are created only by `buy-ebook`, which rejects
the author as buyer, and a book's author never changes. -/
theorem author_never_has_access (s : StoreState) (h : Reachable s)
    (ebookId : Nat) (ebook : Ebook)
    (hfound : getEbook s ebookId = some ebook) :
    hasAccess s ebook.author ebookId = false := by
  obtain ⟨h1, h2, h3⟩ := storeInv_reachable h
  by_contra hacc
  rw [Bool.not_eq_false] at hacc
  obtain ⟨rec, hrec⟩ := Option.isSome_iff_exists.1 hacc
  obtain ⟨e, he, hne⟩ := h2 _ (alookup_some_mem hrec)
  have hfound' : alookup s.ebooks ebookId = some ebook := hfound
  rw [hfound'] at he
  cases Option.some.inj he
  exact hne rfl

/-- C10 (witness): in a concrete reachable state with one registered
book, its author has no access. -/
theorem author_never_has_access_witness :
    hasAccess (runOps (initState [] 0) [Op.register 1 "t" "d" 0 5]) 1 1 = false :=
  author_never_has_access _ ⟨[], 0, [Op.register 1 "t" "d" 0 5], rfl⟩ 1
    { title := "t", description := "d", contentHash := 0, price := 5,
      author := 1, createdAt := 0, active := true }
    (by decide)
